import Mathlib

/-!
Shallow embedding of the upload orchestration pipeline of
`jfrog-cli/artifactory/commands/generic/upload.go`.

The repository's only source file contains the orchestrator (`Upload`),
parameter building (`getUploadParams`), the build-property injector
(`addBuildProps`), the service-configuration factory
(`createUploadServiceConfig`) and the environment-driven resolution of the
minimum checksum-deploy size (`getMinChecksumDeploySize`).  External
collaborators (the repository service client, the build-info persistence
layer, the build-property formatter, the auth factory and the security-dir
lookup) are passed in as explicit parameters, following their contracts.
Machine integers are modelled as `Int`/`Nat` with explicit two's-complement
wrapping where Go's `int64` arithmetic can overflow.
-/

set_option autoImplicit false

namespace JfrogUpload

/-! ### Go integer helpers -/

/-- Two's-complement wrap of an integer into the `int64` range,
the semantics of Go `int64` multiplication on overflow. -/
def wrap64 (x : Int) : Int :=
  (x + 2 ^ 63) % 2 ^ 64 - 2 ^ 63

/-- Accumulator run over the decimal digits of a Go integer literal:
fails on the first non-digit character. -/
def parseDigitsAux : List Char → Nat → Option Nat
  | [], acc => some acc
  | c :: cs, acc =>
    if c.isDigit then parseDigitsAux cs (acc * 10 + (c.toNat - '0'.toNat))
    else none

/-- Go `strconv.ParseInt(s, 10, 64)`: an optional sign followed by at least
one decimal digit, with the value required to fit in `int64`
(otherwise Go reports a range error, surfaced here as `.error`). -/
def goParseInt64 (s : String) : Except String Int :=
  let cs := s.toList
  let signAndDigits : Bool × List Char :=
    match cs with
    | '+' :: rest => (false, rest)
    | '-' :: rest => (true, rest)
    | rest => (false, rest)
  match signAndDigits.2 with
  | [] => Except.error "invalid syntax"
  | _ :: _ =>
    match parseDigitsAux signAndDigits.2 0 with
    | none => Except.error "invalid syntax"
    | some n =>
      let v : Int := if signAndDigits.1 then -(n : Int) else (n : Int)
      if v < -(2 ^ 63) ∨ 2 ^ 63 ≤ v then Except.error "value out of range"
      else Except.ok v

/-- `getMinChecksumDeploySize` of `upload.go`, with the process environment
passed explicitly: `env` is the value of
`JFROG_CLI_MIN_CHECKSUM_DEPLOY_SIZE_KB` (`""` when unset, as returned by
Go `os.Getenv`).  An unset variable yields `10240`; a value parsing as a
decimal `int64` `v` yields Go's `v * 1000` (wrapping in `int64`); anything
else is a configuration error. -/
def getMinChecksumDeploySize (env : String) : Except String Int :=
  if env = "" then Except.ok 10240
  else
    match goParseInt64 env with
    | Except.error e => Except.error e
    | Except.ok minSize => Except.ok (wrap64 (minSize * 1000))

/-! ### Boolean overrides of a specification entry

Modelled from the spec: the per-entry overrides (recursive, regexp,
include-dirs, flat, explode-archive) live in `spec.File`, which is
repository code outside the provided source; each override is "an optional
boolean resolved against a default when absent", failing with a
configuration error when "the entry's raw value is present but not
parseable as a boolean" (Go `strconv.ParseBool`). -/

/-- Go `strconv.ParseBool`: accepts exactly the twelve literal forms. -/
def parseBool (s : String) : Option Bool :=
  if s = "1" ∨ s = "t" ∨ s = "T" ∨ s = "true" ∨ s = "TRUE" ∨ s = "True" then
    some true
  else if s = "0" ∨ s = "f" ∨ s = "F" ∨ s = "false" ∨ s = "FALSE" ∨ s = "False" then
    some false
  else none

/-- Error message standing for the `InvalidConfigurationError` produced for a
present-but-non-boolean override. -/
def invalidBoolMsg : String := "expecting boolean value"

/-- Modelled from the spec: the "get or default" lookup behind
`File.IsRecursive(def)` and its four siblings — absent raw value resolves
to the default, a present raw value must parse as a boolean. -/
def getBoolValue (raw : Option String) (defaultValue : Bool) : Except String Bool :=
  match raw with
  | none => Except.ok defaultValue
  | some s =>
    match parseBool s with
    | some b => Except.ok b
    | none => Except.error invalidBoolMsg

/-! ### Data model -/

/-- Modelled from the spec: a specification entry (`spec.File`) — one
source-pattern-to-target mapping, a mutable property string, and the five
optional boolean overrides kept as their raw optional strings. -/
structure File where
  Pattern : String
  Target : String
  Props : String
  Recursive : Option String
  Regexp : Option String
  IncludeDirs : Option String
  Flat : Option String
  ExplodeArchives : Option String
  deriving Repr, DecidableEq

/-- `UploadConfiguration` of `upload.go` (the `ArtDetails` pointer is an
external auth collaborator, passed separately to `Upload`). -/
structure UploadConfiguration where
  Deb : String
  Threads : Int
  MinChecksumDeploySize : Int
  BuildName : String
  BuildNumber : String
  DryRun : Bool
  Symlink : Bool
  ExplodeArchive : Bool
  Retries : Int
  deriving Repr, DecidableEq

/-- The resolved per-entry transfer request (`services.UploadParams`):
the entry's resolved booleans, its common path/target/props parameters, and
`Deb`/`Symlink`/`Retries` copied from the configuration. -/
structure UploadParams where
  Pattern : String
  Target : String
  Props : String
  Recursive : Bool
  Regexp : Bool
  IncludeDirs : Bool
  Flat : Bool
  ExplodeArchive : Bool
  Deb : String
  Symlink : Bool
  Retries : Int
  deriving Repr, DecidableEq

/-- Result descriptor returned by the service client for one transferred
file (`clientutils.FileInfo`, an external type). -/
structure FileInfo where
  LocalPath : String
  ArtifactoryPath : String
  Sha1 : String
  Md5 : String
  deriving Repr, DecidableEq

/-- A build-artifact record of the build-info payload
(`buildinfo.Artifact`, an external type). -/
structure Artifact where
  Name : String
  Sha1 : String
  Md5 : String
  deriving Repr, DecidableEq

/-! ### Leaf components -/

/-- Go `strings.HasSuffix`, computed over the character lists. -/
def goHasSuffix (s tail : String) : Bool :=
  tail.data.isSuffixOf s.data

/-- `addBuildProps` of `upload.go`.  Go mutates the pointed-to property
string and returns an error; here the pair `(final props, error)` captures
the string after the call together with the returned error.  The external
formatter `utils.CreateBuildProperties` is passed in as
`createBuildProperties`. -/
def addBuildProps (createBuildProperties : String → String → Except String String)
    (props : String) (buildName buildNumber : String) : String × Option String :=
  if buildName = "" ∨ buildNumber = "" then (props, none)
  else
    match createBuildProperties buildName buildNumber with
    | Except.error e => (props, some e)
    | Except.ok buildProps =>
      let props1 :=
        if 0 < props.length ∧ ¬ goHasSuffix props ";" ∧ 0 < buildProps.length then
          props ++ ";"
        else props
      (props1 ++ buildProps, none)

/-- `getUploadParams` of `upload.go`: resolve the five defaulted booleans in
source order (first failure wins), copy the common parameters from the
entry and `Deb`/`Symlink`/`Retries` from the configuration. -/
def getUploadParams (f : File) (configuration : UploadConfiguration) :
    Except String UploadParams :=
  match getBoolValue f.Recursive true with
  | Except.error e => Except.error e
  | Except.ok recursive =>
    match getBoolValue f.Regexp false with
    | Except.error e => Except.error e
    | Except.ok regexp =>
      match getBoolValue f.IncludeDirs false with
      | Except.error e => Except.error e
      | Except.ok includeDirs =>
        match getBoolValue f.Flat true with
        | Except.error e => Except.error e
        | Except.ok flat =>
          match getBoolValue f.ExplodeArchives false with
          | Except.error e => Except.error e
          | Except.ok explodeArchive =>
            Except.ok
              { Pattern := f.Pattern
                Target := f.Target
                Props := f.Props
                Recursive := recursive
                Regexp := regexp
                IncludeDirs := includeDirs
                Flat := flat
                ExplodeArchive := explodeArchive
                Deb := configuration.Deb
                Symlink := configuration.Symlink
                Retries := configuration.Retries }

/-! ### Service configuration and collaborators -/

/-- The fields of the service-client configuration that
`createUploadServiceConfig` sets on the builder; the connection itself is
external. -/
structure ServiceConfig where
  dryRun : Bool
  certPath : String
  minChecksumDeploy : Int
  threads : Int
  deriving Repr, DecidableEq

/-- Per-entry result of the service client's `UploadFiles`:
transferred-file descriptors plus success/fail sub-counts and a possible
error. -/
structure ClientResult where
  artifacts : List FileInfo
  uploaded : Nat
  failed : Nat
  err : Option String
  deriving Repr, DecidableEq

/-- The external collaborators of `Upload`, passed in explicitly:
the security-dir lookup, the process environment value of
`JFROG_CLI_MIN_CHECKSUM_DEPLOY_SIZE_KB`, the auth-config factory, the
service-client constructor, build-info persistence, the build-property
formatter, the per-entry multi-file upload, and the `FileInfo → Artifact`
projection (`ToBuildArtifacts`). -/
structure Collaborators where
  securityDir : Except String String
  env : String
  createArtAuthConfig : Except String Unit
  newManager : Except String Unit
  saveBuildGeneralDetails : String → String → Option String
  createBuildProperties : String → String → Except String String
  uploadFiles : UploadParams → ClientResult
  savePartialBuildInfo : String → String → List Artifact → Option String
  toBuildArtifacts : FileInfo → Artifact

/-- `createUploadServiceConfig` of `upload.go`: the auth factory may fail;
on success the builder assembles dry-run flag, certificate path, minimum
checksum-deploy size and thread count. -/
def createUploadServiceConfig (createArtAuthConfig : Except String Unit)
    (flags : UploadConfiguration) (certPath : String)
    (minChecksumDeploySize : Int) : Except String ServiceConfig :=
  match createArtAuthConfig with
  | Except.error e => Except.error e
  | Except.ok _ =>
    Except.ok
      { dryRun := flags.DryRun
        certPath := certPath
        minChecksumDeploy := minChecksumDeploySize
        threads := flags.Threads }

/-! ### The orchestrator -/

/-- `len(BuildName) > 0 && len(BuildNumber) > 0 && !DryRun`: the condition
guarding both the build-info preflight and the build-info commit. -/
def collectAndNotDry (configuration : UploadConfiguration) : Bool :=
  decide (0 < configuration.BuildName.length) &&
    decide (0 < configuration.BuildNumber.length) && !configuration.DryRun

/-- The build-property injection loop of the preflight: each entry's
property string is replaced by the string left by `addBuildProps`; the
error returned by `addBuildProps` is discarded, exactly as in the source. -/
def injectBuildProps (createBuildProperties : String → String → Except String String)
    (buildName buildNumber : String) (files : List File) : List File :=
  files.map fun f =>
    { f with Props := (addBuildProps createBuildProperties f.Props buildName buildNumber).1 }

/-- One iteration of the transfer loop over the accumulator
`(filesInfo, successCount, failCount, errorOccurred)`: a parameter-build
failure only sets the error flag; otherwise the client is invoked, its
descriptors appended, its sub-counts added, and a client error sets the
flag.  The loop never aborts. -/
def uploadStep (client : UploadParams → ClientResult)
    (configuration : UploadConfiguration)
    (acc : List FileInfo × Nat × Nat × Bool) (f : File) :
    List FileInfo × Nat × Nat × Bool :=
  match getUploadParams f configuration with
  | Except.error _ => (acc.1, acc.2.1, acc.2.2.1, true)
  | Except.ok uploadParams =>
    let r := client uploadParams
    (acc.1 ++ r.artifacts, acc.2.1 + r.uploaded, acc.2.2.1 + r.failed,
      acc.2.2.2 || r.err.isSome)

/-- The transfer loop of `Upload`: a left fold of `uploadStep` over the
entries, starting from empty descriptors, zero counts and a clear error
flag. -/
def uploadLoop (client : UploadParams → ClientResult)
    (configuration : UploadConfiguration) (files : List File) :
    List FileInfo × Nat × Nat × Bool :=
  files.foldl (uploadStep client configuration) ([], 0, 0, false)

/-- `convertFileInfoToBuildArtifacts` of `upload.go`: the index-preserving
projection of every descriptor through `ToBuildArtifacts`. -/
def convertFileInfoToBuildArtifacts (toB : FileInfo → Artifact)
    (filesInfo : List FileInfo) : List Artifact :=
  filesInfo.map toB

/-- The literal message of the aggregate error built after the loop. -/
def uploadFinishedWithErrors : String :=
  "Upload finished with errors. Please review the logs"

/-- Observable outcome of one `Upload` invocation: the returned
`(successCount, failCount, err)` triple, whether `SaveBuildGeneralDetails`
was called, the `SavePartialBuildInfo` call (name, number and the artifact
list placed in the partial payload) when it happened, and the
specification entries as left by the in-place property mutation. -/
structure UploadResult where
  successCount : Nat
  failCount : Nat
  err : Option String
  generalCalled : Bool
  savedBuildInfo : Option (String × String × List Artifact)
  finalFiles : List File
  deriving Repr, DecidableEq

/-- The phase of `Upload` after a successful init and preflight: run the
transfer loop, then decide the outcome — aggregate error, soft failure, or
(when build tracking is on and nothing failed) the build-info commit. -/
def runUpload (C : Collaborators) (configuration : UploadConfiguration)
    (files : List File) (generalCalled : Bool) : UploadResult :=
  if (uploadLoop C.uploadFiles configuration files).2.2.2 then
    { successCount := (uploadLoop C.uploadFiles configuration files).2.1
      failCount := (uploadLoop C.uploadFiles configuration files).2.2.1
      err := some uploadFinishedWithErrors
      generalCalled := generalCalled, savedBuildInfo := none, finalFiles := files }
  else if 0 < (uploadLoop C.uploadFiles configuration files).2.2.1 then
    { successCount := (uploadLoop C.uploadFiles configuration files).2.1
      failCount := (uploadLoop C.uploadFiles configuration files).2.2.1
      err := none
      generalCalled := generalCalled, savedBuildInfo := none, finalFiles := files }
  else if collectAndNotDry configuration then
    { successCount := (uploadLoop C.uploadFiles configuration files).2.1
      failCount := (uploadLoop C.uploadFiles configuration files).2.2.1
      err := C.savePartialBuildInfo configuration.BuildName configuration.BuildNumber
        (convertFileInfoToBuildArtifacts C.toBuildArtifacts
          (uploadLoop C.uploadFiles configuration files).1)
      generalCalled := generalCalled
      savedBuildInfo := some (configuration.BuildName, configuration.BuildNumber,
        convertFileInfoToBuildArtifacts C.toBuildArtifacts
          (uploadLoop C.uploadFiles configuration files).1)
      finalFiles := files }
  else
    { successCount := (uploadLoop C.uploadFiles configuration files).2.1
      failCount := (uploadLoop C.uploadFiles configuration files).2.2.1
      err := none
      generalCalled := generalCalled, savedBuildInfo := none, finalFiles := files }

/-- `Upload` of `upload.go`: the init sequence (security dir, minimum
checksum-deploy size, service configuration, service manager) with its
early returns, then the build-info preflight (general-details save and
property injection) when build tracking is on and not dry-run, then the
transfer loop and outcome decision of `runUpload`. -/
def Upload (C : Collaborators) (uploadSpec : List File)
    (configuration : UploadConfiguration) : UploadResult :=
  match C.securityDir with
  | Except.error e =>
    { successCount := 0, failCount := 0, err := some e
      generalCalled := false, savedBuildInfo := none, finalFiles := uploadSpec }
  | Except.ok certPath =>
    match getMinChecksumDeploySize C.env with
    | Except.error e =>
      { successCount := 0, failCount := 0, err := some e
        generalCalled := false, savedBuildInfo := none, finalFiles := uploadSpec }
    | Except.ok minChecksumDeploySize =>
      match createUploadServiceConfig C.createArtAuthConfig configuration certPath
          minChecksumDeploySize with
      | Except.error e =>
        { successCount := 0, failCount := 0, err := some e
          generalCalled := false, savedBuildInfo := none, finalFiles := uploadSpec }
      | Except.ok _ =>
        match C.newManager with
        | Except.error e =>
          { successCount := 0, failCount := 0, err := some e
            generalCalled := false, savedBuildInfo := none, finalFiles := uploadSpec }
        | Except.ok _ =>
          if collectAndNotDry configuration then
            match C.saveBuildGeneralDetails configuration.BuildName configuration.BuildNumber with
            | some e =>
              { successCount := 0, failCount := 0, err := some e
                generalCalled := true, savedBuildInfo := none, finalFiles := uploadSpec }
            | none =>
              runUpload C configuration
                (injectBuildProps C.createBuildProperties configuration.BuildName
                  configuration.BuildNumber uploadSpec) true
          else
            runUpload C configuration uploadSpec false

/-! ### Helper lemmas -/

theorem str_ne_empty_iff (s : String) : s ≠ "" ↔ 0 < s.length := by
  cases s with
  | mk data =>
    cases data with
    | nil => simp [String.length]
    | cons c cs =>
      simp only [String.length, List.length_cons, Nat.succ_pos, iff_true]
      intro h
      have : (c :: cs : List Char) = [] := congrArg String.data h
      simp at this

theorem collectAndNotDry_eq_true (cfg : UploadConfiguration) :
    collectAndNotDry cfg = true ↔
      (0 < cfg.BuildName.length ∧ 0 < cfg.BuildNumber.length ∧ cfg.DryRun = false) := by
  simp [collectAndNotDry, Bool.and_eq_true, Bool.not_eq_true', and_assoc]

/-- Componentwise combination of two loop accumulators. -/
def combineLoop (x y : List FileInfo × Nat × Nat × Bool) :
    List FileInfo × Nat × Nat × Bool :=
  (x.1 ++ y.1, x.2.1 + y.2.1, x.2.2.1 + y.2.2.1, x.2.2.2 || y.2.2.2)

theorem uploadLoop_acc (client : UploadParams → ClientResult)
    (cfg : UploadConfiguration) (files : List File)
    (fi : List FileInfo) (s f : Nat) (b : Bool) :
    files.foldl (uploadStep client cfg) (fi, s, f, b) =
      combineLoop (fi, s, f, b) (uploadLoop client cfg files) := by
  induction files generalizing fi s f b with
  | nil => simp [uploadLoop, combineLoop]
  | cons hd tl ih =>
    have hrec : uploadLoop client cfg (hd :: tl) =
        List.foldl (uploadStep client cfg) (uploadStep client cfg ([], 0, 0, false) hd) tl := rfl
    rw [List.foldl_cons, hrec]
    cases hu : getUploadParams hd cfg with
    | error e =>
      simp only [uploadStep, hu, ih, combineLoop]
      simp
    | ok p =>
      simp only [uploadStep, hu, ih, combineLoop]
      simp [List.append_assoc, Nat.add_assoc, Bool.or_assoc]

theorem uploadLoop_append (client : UploadParams → ClientResult)
    (cfg : UploadConfiguration) (l1 l2 : List File) :
    uploadLoop client cfg (l1 ++ l2) =
      combineLoop (uploadLoop client cfg l1) (uploadLoop client cfg l2) := by
  rw [uploadLoop, List.foldl_append]
  exact uploadLoop_acc client cfg l2 _ _ _ _

/-- A raw override value that is present but not boolean-parseable. -/
def malformedRaw (raw : Option String) : Bool :=
  match raw with
  | none => false
  | some s => (parseBool s).isNone

/-- The entry has at least one present-but-non-boolean override. -/
def hasMalformedOverride (f : File) : Bool :=
  malformedRaw f.Recursive || malformedRaw f.Regexp || malformedRaw f.IncludeDirs ||
    malformedRaw f.Flat || malformedRaw f.ExplodeArchives

theorem getBoolValue_malformed (raw : Option String) (d : Bool)
    (h : malformedRaw raw = true) : getBoolValue raw d = Except.error invalidBoolMsg := by
  cases raw with
  | none => simp [malformedRaw] at h
  | some s =>
    simp only [malformedRaw, Option.isNone_iff_eq_none] at h
    simp [getBoolValue, h]

theorem getBoolValue_ok_of_wellformed (raw : Option String) (d : Bool)
    (h : malformedRaw raw = false) : ∃ b, getBoolValue raw d = Except.ok b := by
  cases raw with
  | none => exact ⟨d, rfl⟩
  | some s =>
    simp only [malformedRaw, Option.isNone_eq_false_iff, Option.isSome_iff_exists] at h
    obtain ⟨b, hb⟩ := h
    exact ⟨b, by simp [getBoolValue, hb]⟩

theorem getUploadParams_malformed (f : File) (cfg : UploadConfiguration)
    (h : hasMalformedOverride f = true) :
    getUploadParams f cfg = Except.error invalidBoolMsg := by
  unfold getUploadParams
  by_cases h1 : malformedRaw f.Recursive = true
  · rw [getBoolValue_malformed _ _ h1]
  · obtain ⟨b1, hb1⟩ := getBoolValue_ok_of_wellformed f.Recursive true (by simpa using h1)
    rw [hb1]
    by_cases h2 : malformedRaw f.Regexp = true
    · rw [getBoolValue_malformed _ _ h2]
    · obtain ⟨b2, hb2⟩ := getBoolValue_ok_of_wellformed f.Regexp false (by simpa using h2)
      rw [hb2]
      by_cases h3 : malformedRaw f.IncludeDirs = true
      · rw [getBoolValue_malformed _ _ h3]
      · obtain ⟨b3, hb3⟩ := getBoolValue_ok_of_wellformed f.IncludeDirs false (by simpa using h3)
        rw [hb3]
        by_cases h4 : malformedRaw f.Flat = true
        · rw [getBoolValue_malformed _ _ h4]
        · obtain ⟨b4, hb4⟩ := getBoolValue_ok_of_wellformed f.Flat true (by simpa using h4)
          rw [hb4]
          have h5 : malformedRaw f.ExplodeArchives = true := by
            simp only [hasMalformedOverride, Bool.or_eq_true, or_assoc] at h
            rcases h with h | h | h | h | h
            · exact absurd h h1
            · exact absurd h h2
            · exact absurd h h3
            · exact absurd h h4
            · exact h
          rw [getBoolValue_malformed _ _ h5]

theorem runUpload_counts (C : Collaborators) (cfg : UploadConfiguration)
    (files : List File) (g : Bool) :
    (runUpload C cfg files g).successCount = (uploadLoop C.uploadFiles cfg files).2.1 ∧
      (runUpload C cfg files g).failCount = (uploadLoop C.uploadFiles cfg files).2.2.1 := by
  unfold runUpload
  split
  · exact ⟨rfl, rfl⟩
  · split
    · exact ⟨rfl, rfl⟩
    · split
      · exact ⟨rfl, rfl⟩
      · exact ⟨rfl, rfl⟩

theorem runUpload_finalFiles (C : Collaborators) (cfg : UploadConfiguration)
    (files : List File) (g : Bool) :
    (runUpload C cfg files g).finalFiles = files := by
  unfold runUpload
  split
  · rfl
  · split
    · rfl
    · split <;> rfl

theorem runUpload_generalCalled (C : Collaborators) (cfg : UploadConfiguration)
    (files : List File) (g : Bool) :
    (runUpload C cfg files g).generalCalled = g := by
  unfold runUpload
  split
  · rfl
  · split
    · rfl
    · split <;> rfl

theorem Upload_ok (C : Collaborators) (files : List File) (cfg : UploadConfiguration)
    (cp : String) (m : Int)
    (h1 : C.securityDir = Except.ok cp)
    (h2 : getMinChecksumDeploySize C.env = Except.ok m)
    (h3 : C.createArtAuthConfig = Except.ok ())
    (h4 : C.newManager = Except.ok ()) :
    Upload C files cfg =
      if collectAndNotDry cfg then
        match C.saveBuildGeneralDetails cfg.BuildName cfg.BuildNumber with
        | some e =>
          { successCount := 0, failCount := 0, err := some e
            generalCalled := true, savedBuildInfo := none, finalFiles := files }
        | none =>
          runUpload C cfg
            (injectBuildProps C.createBuildProperties cfg.BuildName cfg.BuildNumber files) true
      else runUpload C cfg files false := by
  unfold Upload createUploadServiceConfig
  rw [h1, h2, h3, h4]

theorem goParseInt64_empty : goParseInt64 "" = Except.error "invalid syntax" := rfl

theorem getMinChecksumDeploySize_parse (s : String) (v : Int)
    (h : goParseInt64 s = Except.ok v) :
    getMinChecksumDeploySize s = Except.ok (wrap64 (v * 1000)) := by
  unfold getMinChecksumDeploySize
  by_cases hs : s = ""
  · subst hs
    rw [goParseInt64_empty] at h
    exact Except.noConfusion h
  · rw [if_neg hs, h]

theorem wrap64_eq_self (x : Int) (h1 : -(2 ^ 63) ≤ x) (h2 : x < 2 ^ 63) :
    wrap64 x = x := by
  unfold wrap64
  have h3 : (0 : Int) ≤ x + 2 ^ 63 := by omega
  have h4 : x + 2 ^ 63 < 2 ^ 64 := by omega
  rw [Int.emod_eq_of_lt h3 h4]
  omega

/-! ### Claim C1 — resolution of the minimum checksum-deploy size

The claim states that an unset override yields `10240000` bytes; the code
returns `10240`.  It also states that any parsed value `v` yields exactly
`v * 1000`; Go's `int64` multiplication wraps, so this only holds when the
product fits in `int64`. -/

/-- C1 (counterexample): with the override unset, `getMinChecksumDeploySize`
returns `10240`, not the claimed `10240000`; and for the parseable value
`10000000000000000` the returned size is the wrapped product, not the
mathematical `v * 1000`. -/
theorem C1_counterexample :
    getMinChecksumDeploySize "" = Except.ok 10240 ∧ (10240 : Int) ≠ 10240000 ∧
      goParseInt64 "10000000000000000" = Except.ok 10000000000000000 ∧
      getMinChecksumDeploySize "10000000000000000" =
        Except.ok (-8446744073709551616) ∧
      (10000000000000000 : Int) * 1000 ≠ -8446744073709551616 := by
  refine ⟨rfl, by decide, rfl, rfl, by decide⟩

/-- C1 (amended): with `JFROG_CLI_MIN_CHECKSUM_DEPLOY_SIZE_KB` unset,
`getMinChecksumDeploySize` returns `10240` with no error; for every value
parsing as a decimal `int64` `v`, it returns the two's-complement 64-bit
value of `v * 1000` with no error, which equals `v * 1000` exactly whenever
that product fits in `int64`. -/
theorem C1_minChecksumDeploySize (s : String) (v : Int)
    (hparse : goParseInt64 s = Except.ok v) :
    getMinChecksumDeploySize "" = Except.ok 10240 ∧
      getMinChecksumDeploySize s = Except.ok (wrap64 (v * 1000)) ∧
      (-(2 ^ 63) ≤ v * 1000 → v * 1000 < 2 ^ 63 →
        getMinChecksumDeploySize s = Except.ok (v * 1000)) := by
  refine ⟨rfl, getMinChecksumDeploySize_parse s v hparse, fun hlo hhi => ?_⟩
  rw [getMinChecksumDeploySize_parse s v hparse, wrap64_eq_self _ hlo hhi]

/-- C1 (witness): the amended claim evaluated at the override value `"5"`. -/
theorem C1_witness :
    goParseInt64 "5" = Except.ok 5 ∧ getMinChecksumDeploySize "5" = Except.ok 5000 := by
  refine ⟨rfl, ?_⟩
  exact (C1_minChecksumDeploySize "5" 5 rfl).2.2 (by decide) (by decide)

/-! ### Claim C8 — nonnegativity of the resolved size

The claim asserts the resolved size is always `≥ 0`; a negative override
such as `"-1"` parses and yields `-1000`. -/

/-- C8 (counterexample): the override `"-1"` is numeric, parses without
error, and resolves to the negative size `-1000`. -/
theorem C8_counterexample :
    getMinChecksumDeploySize "-1" = Except.ok (-1000) ∧ ((-1000 : Int) < 0) :=
  ⟨rfl, by decide⟩

/-- C8 (amended): the resolved minimum checksum-deploy size is nonnegative
when the override is unset, and when the override parses to a nonnegative
`v` whose product `v * 1000` fits in `int64`. -/
theorem C8_minSize_nonneg :
    (∀ r : Int, getMinChecksumDeploySize "" = Except.ok r → 0 ≤ r) ∧
      (∀ (s : String) (v r : Int), goParseInt64 s = Except.ok v → 0 ≤ v →
        v * 1000 < 2 ^ 63 → getMinChecksumDeploySize s = Except.ok r → 0 ≤ r) := by
  constructor
  · intro r h
    rw [show getMinChecksumDeploySize "" = Except.ok 10240 from rfl] at h
    injection h with h'
    omega
  · intro s v r hparse hv hhi h
    have hnn : (0 : Int) ≤ v * 1000 := mul_nonneg hv (by norm_num)
    have hlo : -(2 ^ 63) ≤ v * 1000 := by omega
    rw [getMinChecksumDeploySize_parse s v hparse, wrap64_eq_self _ hlo hhi] at h
    injection h with h'
    omega

/-- C8 (witness): the amended claim evaluated at the override value `"7"`. -/
theorem C8_witness : (0 : Int) ≤ 7000 :=
  C8_minSize_nonneg.2 "7" 7 7000 rfl (by decide) (by decide) rfl

/-! ### Claim C6 — the append rule of the build-property injector -/

/-- C6: with build name or number empty, `addBuildProps` returns the
property string unchanged with no error; with both non-empty and the
formatter producing a non-empty fragment `f`, the result inserts a `";"`
separator exactly when the existing string is non-empty and does not
already end with `";"`. -/
theorem C6_addBuildProps_append (fmt : String → String → Except String String)
    (p buildName buildNumber f : String) :
    ((buildName = "" ∨ buildNumber = "") →
      addBuildProps fmt p buildName buildNumber = (p, none)) ∧
    (buildName ≠ "" → buildNumber ≠ "" → fmt buildName buildNumber = Except.ok f →
      f ≠ "" →
      addBuildProps fmt p buildName buildNumber =
        (if p ≠ "" ∧ ¬ goHasSuffix p ";" then p ++ ";" ++ f else p ++ f, none)) := by
  constructor
  · intro h
    unfold addBuildProps
    rw [if_pos h]
  · intro h1 h2 hf hne
    unfold addBuildProps
    rw [if_neg (by tauto), hf]
    dsimp only
    by_cases hp : 0 < p.length ∧ ¬ goHasSuffix p ";" = true ∧ 0 < f.length
    · rw [if_pos hp, if_pos ⟨(str_ne_empty_iff p).mpr hp.1, hp.2.1⟩]
    · rw [if_neg hp]
      have hneg : ¬(p ≠ "" ∧ ¬ goHasSuffix p ";" = true) := by
        intro hc
        exact hp ⟨(str_ne_empty_iff p).mp hc.1, hc.2, (str_ne_empty_iff f).mp hne⟩
      rw [if_neg hneg]

/-- C6 (witness): `"a=1"` gains a separator before the fragment and
`"a=1;"` does not gain a doubled one. -/
theorem C6_witness :
    addBuildProps (fun _ _ => Except.ok "k=v") "a=1" "x" "1" = ("a=1;k=v", none) ∧
      addBuildProps (fun _ _ => Except.ok "k=v") "a=1;" "x" "1" = ("a=1;k=v", none) := by
  constructor
  · have h := (C6_addBuildProps_append (fun _ _ => Except.ok "k=v") "a=1" "x" "1" "k=v").2
      (by decide) (by decide) rfl (by decide)
    rw [h]
    decide
  · have h := (C6_addBuildProps_append (fun _ _ => Except.ok "k=v") "a=1;" "x" "1" "k=v").2
      (by decide) (by decide) rfl (by decide)
    rw [h]
    decide

/-! ### Claim C7 — atomicity of the injector on formatter failure -/

/-- C7: when the external formatter fails, `addBuildProps` returns that
error and the property string is left unmodified. -/
theorem C7_formatter_error (fmt : String → String → Except String String)
    (p buildName buildNumber e : String)
    (h1 : buildName ≠ "") (h2 : buildNumber ≠ "")
    (hf : fmt buildName buildNumber = Except.error e) :
    addBuildProps fmt p buildName buildNumber = (p, some e) := by
  unfold addBuildProps
  rw [if_neg (by tauto), hf]

/-- C7 (witness): a failing formatter leaves `"a=1"` unchanged and
surfaces the error. -/
theorem C7_witness :
    addBuildProps (fun _ _ => Except.error "boom") "a=1" "x" "1" = ("a=1", some "boom") :=
  C7_formatter_error (fun _ _ => Except.error "boom") "a=1" "x" "1" "boom"
    (by decide) (by decide) rfl

/-! ### Branch lemmas for the orchestrator -/

theorem runUpload_hard (C : Collaborators) (cfg : UploadConfiguration)
    (files : List File) (g : Bool)
    (h : (uploadLoop C.uploadFiles cfg files).2.2.2 = true) :
    (runUpload C cfg files g).err = some uploadFinishedWithErrors ∧
      (runUpload C cfg files g).savedBuildInfo = none := by
  unfold runUpload
  rw [if_pos h]
  exact ⟨rfl, rfl⟩

theorem runUpload_soft (C : Collaborators) (cfg : UploadConfiguration)
    (files : List File) (g : Bool)
    (h : (uploadLoop C.uploadFiles cfg files).2.2.2 = false)
    (hpos : 0 < (uploadLoop C.uploadFiles cfg files).2.2.1) :
    (runUpload C cfg files g).err = none ∧
      (runUpload C cfg files g).savedBuildInfo = none := by
  unfold runUpload
  rw [if_neg (by simp [h]), if_pos hpos]
  exact ⟨rfl, rfl⟩

theorem runUpload_commit (C : Collaborators) (cfg : UploadConfiguration)
    (files : List File) (g : Bool)
    (h : (uploadLoop C.uploadFiles cfg files).2.2.2 = false)
    (hz : (uploadLoop C.uploadFiles cfg files).2.2.1 = 0)
    (hc : collectAndNotDry cfg = true) :
    (runUpload C cfg files g).err =
        C.savePartialBuildInfo cfg.BuildName cfg.BuildNumber
          (convertFileInfoToBuildArtifacts C.toBuildArtifacts
            (uploadLoop C.uploadFiles cfg files).1) ∧
      (runUpload C cfg files g).savedBuildInfo =
        some (cfg.BuildName, cfg.BuildNumber,
          convertFileInfoToBuildArtifacts C.toBuildArtifacts
            (uploadLoop C.uploadFiles cfg files).1) := by
  unfold runUpload
  rw [if_neg (by simp [h]), if_neg (by simp [hz]), if_pos hc]
  exact ⟨rfl, rfl⟩

theorem runUpload_nocollect (C : Collaborators) (cfg : UploadConfiguration)
    (files : List File) (g : Bool)
    (h : (uploadLoop C.uploadFiles cfg files).2.2.2 = false)
    (hz : (uploadLoop C.uploadFiles cfg files).2.2.1 = 0)
    (hc : collectAndNotDry cfg = false) :
    (runUpload C cfg files g).err = none ∧
      (runUpload C cfg files g).savedBuildInfo = none := by
  unfold runUpload
  rw [if_neg (by simp [h]), if_neg (by simp [hz]), if_neg (by simp [hc])]
  exact ⟨rfl, rfl⟩

theorem Upload_ok_collect (C : Collaborators) (files : List File)
    (cfg : UploadConfiguration) (cp : String) (m : Int)
    (h1 : C.securityDir = Except.ok cp)
    (h2 : getMinChecksumDeploySize C.env = Except.ok m)
    (h3 : C.createArtAuthConfig = Except.ok ())
    (h4 : C.newManager = Except.ok ())
    (hc : collectAndNotDry cfg = true)
    (hsg : C.saveBuildGeneralDetails cfg.BuildName cfg.BuildNumber = none) :
    Upload C files cfg =
      runUpload C cfg
        (injectBuildProps C.createBuildProperties cfg.BuildName cfg.BuildNumber files)
        true := by
  rw [Upload_ok C files cfg cp m h1 h2 h3 h4, if_pos hc, hsg]

theorem Upload_ok_generalFail (C : Collaborators) (files : List File)
    (cfg : UploadConfiguration) (cp : String) (m : Int) (e : String)
    (h1 : C.securityDir = Except.ok cp)
    (h2 : getMinChecksumDeploySize C.env = Except.ok m)
    (h3 : C.createArtAuthConfig = Except.ok ())
    (h4 : C.newManager = Except.ok ())
    (hc : collectAndNotDry cfg = true)
    (hsg : C.saveBuildGeneralDetails cfg.BuildName cfg.BuildNumber = some e) :
    Upload C files cfg =
      { successCount := 0, failCount := 0, err := some e
        generalCalled := true, savedBuildInfo := none, finalFiles := files } := by
  rw [Upload_ok C files cfg cp m h1 h2 h3 h4, if_pos hc, hsg]

theorem Upload_ok_nocollect (C : Collaborators) (files : List File)
    (cfg : UploadConfiguration) (cp : String) (m : Int)
    (h1 : C.securityDir = Except.ok cp)
    (h2 : getMinChecksumDeploySize C.env = Except.ok m)
    (h3 : C.createArtAuthConfig = Except.ok ())
    (h4 : C.newManager = Except.ok ())
    (hc : collectAndNotDry cfg = false) :
    Upload C files cfg = runUpload C cfg files false := by
  rw [Upload_ok C files cfg cp m h1 h2 h3 h4, if_neg (by simp [hc])]

/-! ### Concrete fixtures used by witnesses and counterexamples -/

def sampleFI : FileInfo where
  LocalPath := "local/a.jar"
  ArtifactoryPath := "repo/a.jar"
  Sha1 := "da39a3ee"
  Md5 := "d41d8cd9"

def sampleToArtifact (fi : FileInfo) : Artifact :=
  { Name := fi.LocalPath, Sha1 := fi.Sha1, Md5 := fi.Md5 }

def okCollab : Collaborators where
  securityDir := Except.ok "certs"
  env := ""
  createArtAuthConfig := Except.ok ()
  newManager := Except.ok ()
  saveBuildGeneralDetails := fun _ _ => none
  createBuildProperties := fun n m =>
    Except.ok ("build.name=" ++ n ++ ";build.number=" ++ m)
  uploadFiles := fun _ => { artifacts := [sampleFI], uploaded := 1, failed := 0, err := none }
  savePartialBuildInfo := fun _ _ _ => none
  toBuildArtifacts := sampleToArtifact

def cfgPlain : UploadConfiguration where
  Deb := ""
  Threads := 3
  MinChecksumDeploySize := 0
  BuildName := ""
  BuildNumber := ""
  DryRun := false
  Symlink := false
  ExplodeArchive := false
  Retries := 3

def cfgBuild : UploadConfiguration :=
  { cfgPlain with BuildName := "b", BuildNumber := "1" }

def fPlain : File where
  Pattern := "files"
  Target := "repo"
  Props := ""
  Recursive := none
  Regexp := none
  IncludeDirs := none
  Flat := none
  ExplodeArchives := none

def fBad : File := { fPlain with Flat := some "maybe" }

def fProps : File := { fPlain with Props := "a=1" }

def fA : File := { fPlain with Pattern := "A" }

def fB : File := { fPlain with Pattern := "B" }

/-- Client of the spec's soft-failure example: entry `A` transfers 3/3
files, entry `B` transfers 2/3 with no client error. -/
def softClient : UploadParams → ClientResult := fun p =>
  if p.Pattern = "A" then { artifacts := [], uploaded := 3, failed := 0, err := none }
  else { artifacts := [], uploaded := 2, failed := 1, err := none }

def softCollab : Collaborators := { okCollab with uploadFiles := softClient }

/-! ### Claim C2 — outcome decision after the transfer loop -/

/-- C2: once the transfer loop completes (initialization succeeded and the
general-details save, when attempted, succeeded), an error flagged during
the loop makes `Upload` return the accumulated counts with the generic
"finished with errors" error; otherwise a positive `failCount` is returned
with a nil error (soft failure). -/
theorem C2_outcome (C : Collaborators) (files : List File) (cfg : UploadConfiguration)
    (cp : String) (m : Int)
    (h1 : C.securityDir = Except.ok cp)
    (h2 : getMinChecksumDeploySize C.env = Except.ok m)
    (h3 : C.createArtAuthConfig = Except.ok ())
    (h4 : C.newManager = Except.ok ())
    (hg : collectAndNotDry cfg = true →
      C.saveBuildGeneralDetails cfg.BuildName cfg.BuildNumber = none) :
    ((uploadLoop C.uploadFiles cfg (Upload C files cfg).finalFiles).2.2.2 = true →
      (Upload C files cfg).err = some uploadFinishedWithErrors ∧
        (Upload C files cfg).successCount =
          (uploadLoop C.uploadFiles cfg (Upload C files cfg).finalFiles).2.1 ∧
        (Upload C files cfg).failCount =
          (uploadLoop C.uploadFiles cfg (Upload C files cfg).finalFiles).2.2.1) ∧
    ((uploadLoop C.uploadFiles cfg (Upload C files cfg).finalFiles).2.2.2 = false →
      0 < (uploadLoop C.uploadFiles cfg (Upload C files cfg).finalFiles).2.2.1 →
      (Upload C files cfg).err = none ∧
        (Upload C files cfg).successCount =
          (uploadLoop C.uploadFiles cfg (Upload C files cfg).finalFiles).2.1 ∧
        (Upload C files cfg).failCount =
          (uploadLoop C.uploadFiles cfg (Upload C files cfg).finalFiles).2.2.1) := by
  by_cases hc : collectAndNotDry cfg = true
  · rw [Upload_ok_collect C files cfg cp m h1 h2 h3 h4 hc (hg hc), runUpload_finalFiles]
    refine ⟨fun hf => ⟨(runUpload_hard C cfg _ true hf).1, (runUpload_counts C cfg _ true).1,
      (runUpload_counts C cfg _ true).2⟩, fun hf hp => ⟨(runUpload_soft C cfg _ true hf hp).1,
      (runUpload_counts C cfg _ true).1, (runUpload_counts C cfg _ true).2⟩⟩
  · rw [Upload_ok_nocollect C files cfg cp m h1 h2 h3 h4 (by simpa using hc),
      runUpload_finalFiles]
    refine ⟨fun hf => ⟨(runUpload_hard C cfg _ false hf).1, (runUpload_counts C cfg _ false).1,
      (runUpload_counts C cfg _ false).2⟩, fun hf hp => ⟨(runUpload_soft C cfg _ false hf hp).1,
      (runUpload_counts C cfg _ false).1, (runUpload_counts C cfg _ false).2⟩⟩

/-- C2 (witness): a run with a malformed entry ends with the generic
error; the spec's soft-failure example (entry A transfers 3/3, entry B
transfers 2/3, no client error) yields `successCount = 5`, `failCount = 1`
and a nil error. -/
theorem C2_witness :
    (Upload okCollab [fPlain, fBad] cfgPlain).err = some uploadFinishedWithErrors ∧
      (Upload softCollab [fA, fB] cfgPlain).err = none ∧
      (Upload softCollab [fA, fB] cfgPlain).successCount = 5 ∧
      (Upload softCollab [fA, fB] cfgPlain).failCount = 1 := by
  have ha := (C2_outcome okCollab [fPlain, fBad] cfgPlain "certs" 10240
    rfl rfl rfl rfl (by decide)).1 (by decide)
  have hb := (C2_outcome softCollab [fA, fB] cfgPlain "certs" 10240
    rfl rfl rfl rfl (by decide)).2 (by decide) (by decide)
  exact ⟨ha.1, hb.1, hb.2.1.trans (by decide), hb.2.2.trans (by decide)⟩

/-! ### Claim C3 — when the build-info commit is attempted

The claim's iff fails on runs that abort before the loop: with build name
and number set, dry-run false, and the initialization or the
general-details save failing, the loop (vacuously) has no errors and zero
failed files, yet no commit is attempted.  Amended with the proviso that
initialization and the preflight general-details save succeed. -/

theorem runUpload_savedBuildInfo_iff (C : Collaborators) (cfg : UploadConfiguration)
    (fs : List File) (g : Bool) :
    (runUpload C cfg fs g).savedBuildInfo ≠ none ↔
      (collectAndNotDry cfg = true ∧ (uploadLoop C.uploadFiles cfg fs).2.2.2 = false ∧
        (uploadLoop C.uploadFiles cfg fs).2.2.1 = 0) := by
  cases hfl : (uploadLoop C.uploadFiles cfg fs).2.2.2 with
  | true =>
    rw [(runUpload_hard C cfg fs g hfl).2]
    simp [hfl]
  | false =>
    by_cases hz : (uploadLoop C.uploadFiles cfg fs).2.2.1 = 0
    · cases hcc : collectAndNotDry cfg with
      | true =>
        rw [(runUpload_commit C cfg fs g hfl hz hcc).2]
        simp [hz]
      | false =>
        rw [(runUpload_nocollect C cfg fs g hfl hz hcc).2]
        simp [hcc]
    · rw [(runUpload_soft C cfg fs g hfl (Nat.pos_of_ne_zero hz)).2]
      simp [hz]

theorem runUpload_savedBuildInfo_nocollect (C : Collaborators)
    (cfg : UploadConfiguration) (fs : List File) (g : Bool)
    (hnc : collectAndNotDry cfg = false) :
    (runUpload C cfg fs g).savedBuildInfo = none := by
  cases ho : (runUpload C cfg fs g).savedBuildInfo with
  | none => rfl
  | some x =>
    have h := (runUpload_savedBuildInfo_iff C cfg fs g).mp (by rw [ho]; simp)
    rw [hnc] at h
    exact Bool.noConfusion h.1

def initFailCollab : Collaborators :=
  { okCollab with securityDir := Except.error "no certs" }

def generalFailCollab : Collaborators :=
  { okCollab with saveBuildGeneralDetails := fun _ _ => some "general fail" }

/-- C3 (counterexample): two runs with build name `"b"`, number `"1"` and
dry-run false in which the loop reports no error and zero failed files,
yet no commit is attempted — one aborts in initialization, the other on
the general-details save. -/
theorem C3_counterexample :
    0 < cfgBuild.BuildName.length ∧ 0 < cfgBuild.BuildNumber.length ∧
      cfgBuild.DryRun = false ∧
      uploadLoop initFailCollab.uploadFiles cfgBuild
        (Upload initFailCollab [] cfgBuild).finalFiles = ([], 0, 0, false) ∧
      (Upload initFailCollab [] cfgBuild).savedBuildInfo = none ∧
      uploadLoop generalFailCollab.uploadFiles cfgBuild
        (Upload generalFailCollab [] cfgBuild).finalFiles = ([], 0, 0, false) ∧
      (Upload generalFailCollab [] cfgBuild).savedBuildInfo = none := by
  exact ⟨by decide, by decide, rfl, rfl, rfl, rfl, rfl⟩

/-- C3 (amended): provided initialization and the preflight general-details
save succeed, `Upload` attempts `SavePartialBuildInfo` if and only if build
name and number are both non-empty, dry-run is false, the loop flagged no
error, and `failCount = 0`; and with dry-run true, no general-details save,
no property injection and no commit happen. -/
theorem C3_commit_iff (C : Collaborators) (files : List File) (cfg : UploadConfiguration)
    (cp : String) (m : Int)
    (h1 : C.securityDir = Except.ok cp)
    (h2 : getMinChecksumDeploySize C.env = Except.ok m)
    (h3 : C.createArtAuthConfig = Except.ok ())
    (h4 : C.newManager = Except.ok ())
    (hg : collectAndNotDry cfg = true →
      C.saveBuildGeneralDetails cfg.BuildName cfg.BuildNumber = none) :
    ((Upload C files cfg).savedBuildInfo ≠ none ↔
      (0 < cfg.BuildName.length ∧ 0 < cfg.BuildNumber.length ∧ cfg.DryRun = false ∧
        (uploadLoop C.uploadFiles cfg (Upload C files cfg).finalFiles).2.2.2 = false ∧
        (uploadLoop C.uploadFiles cfg (Upload C files cfg).finalFiles).2.2.1 = 0)) ∧
    (cfg.DryRun = true →
      (Upload C files cfg).generalCalled = false ∧
        (Upload C files cfg).finalFiles = files ∧
        (Upload C files cfg).savedBuildInfo = none) := by
  by_cases hc : collectAndNotDry cfg = true
  · rw [Upload_ok_collect C files cfg cp m h1 h2 h3 h4 hc (hg hc), runUpload_finalFiles]
    obtain ⟨hn1, hn2, hd⟩ := (collectAndNotDry_eq_true cfg).mp hc
    constructor
    · rw [runUpload_savedBuildInfo_iff]
      constructor
      · rintro ⟨-, hfl, hz⟩
        exact ⟨hn1, hn2, hd, hfl, hz⟩
      · rintro ⟨-, -, -, hfl, hz⟩
        exact ⟨hc, hfl, hz⟩
    · intro hdry
      rw [hd] at hdry
      exact Bool.noConfusion hdry
  · have hnc : collectAndNotDry cfg = false := by simpa using hc
    rw [Upload_ok_nocollect C files cfg cp m h1 h2 h3 h4 hnc, runUpload_finalFiles]
    constructor
    · rw [runUpload_savedBuildInfo_iff]
      constructor
      · rintro ⟨hcc, -⟩
        rw [hnc] at hcc
        exact Bool.noConfusion hcc
      · rintro ⟨hn1, hn2, hd, -, -⟩
        exact absurd ((collectAndNotDry_eq_true cfg).mpr ⟨hn1, hn2, hd⟩) hc
    · intro hdry
      exact ⟨runUpload_generalCalled C cfg files false, rfl,
        runUpload_savedBuildInfo_nocollect C cfg files false hnc⟩

/-- C3 (witness): a clean build-tracked run commits; the same run with
dry-run true performs no general-details save, no injection and no
commit. -/
theorem C3_witness :
    (Upload okCollab [fPlain] cfgBuild).savedBuildInfo ≠ none ∧
      (Upload okCollab [fPlain] { cfgBuild with DryRun := true }).savedBuildInfo = none := by
  have h := C3_commit_iff okCollab [fPlain] cfgBuild "certs" 10240 rfl rfl rfl rfl (by decide)
  have hdry := C3_commit_iff okCollab [fPlain] { cfgBuild with DryRun := true } "certs" 10240
    rfl rfl rfl rfl (by decide)
  exact ⟨h.1.mpr ⟨by decide, by decide, rfl, by decide, by decide⟩, (hdry.2 rfl).2.2⟩

/-! ### Claim C4 — the injector's error in the preflight loop

The source calls `addBuildProps` at line 48 without checking its error
return: a formatter failure during the preflight neither sets the error
flag nor surfaces anywhere.  The spec records this discard as a bug of the
reference behavior and requires propagation, so the code contradicts the
specified intent. -/

def failFmtCollab : Collaborators :=
  { okCollab with createBuildProperties := fun _ _ => Except.error "props fail" }

/-- C4 (code bug, evaluated at the failing input): with build tracking on,
the formatter failing for the single entry, and the transfer succeeding,
`Upload` returns a nil error and an untouched property string — the
injector failure is silently discarded instead of contributing to the
run's aggregate error. -/
theorem C4_injector_error_discarded :
    failFmtCollab.createBuildProperties cfgBuild.BuildName cfgBuild.BuildNumber =
        Except.error "props fail" ∧
      (Upload failFmtCollab [fProps] cfgBuild).err = none ∧
      (Upload failFmtCollab [fProps] cfgBuild).successCount = 1 ∧
      (Upload failFmtCollab [fProps] cfgBuild).failCount = 0 ∧
      (Upload failFmtCollab [fProps] cfgBuild).finalFiles = [fProps] := by
  exact ⟨rfl, rfl, rfl, rfl, rfl⟩

/-! ### Claim C5 — a malformed boolean override skips only its entry -/

theorem hasMalformedOverride_setProps (f : File) (p : String) :
    hasMalformedOverride { f with Props := p } = hasMalformedOverride f := rfl

theorem uploadLoop_with_bad (client : UploadParams → ClientResult)
    (cfg : UploadConfiguration) (l1 l2 : List File) (bad : File)
    (hbad : getUploadParams bad cfg = Except.error invalidBoolMsg) :
    (uploadLoop client cfg (l1 ++ bad :: l2)).2.2.2 = true ∧
      (uploadLoop client cfg (l1 ++ bad :: l2)).2.1 =
        (uploadLoop client cfg (l1 ++ l2)).2.1 ∧
      (uploadLoop client cfg (l1 ++ bad :: l2)).2.2.1 =
        (uploadLoop client cfg (l1 ++ l2)).2.2.1 := by
  have hsingle : uploadLoop client cfg [bad] = ([], 0, 0, true) := by
    simp [uploadLoop, uploadStep, hbad]
  have hx : l1 ++ bad :: l2 = l1 ++ ([bad] ++ l2) := by simp
  rw [hx, uploadLoop_append client cfg l1 ([bad] ++ l2),
    uploadLoop_append client cfg [bad] l2, hsingle,
    uploadLoop_append client cfg l1 l2]
  simp [combineLoop]

theorem runUpload_with_bad (C : Collaborators) (cfg : UploadConfiguration)
    (l1 l2 : List File) (bad : File) (g : Bool)
    (hbad : getUploadParams bad cfg = Except.error invalidBoolMsg) :
    (runUpload C cfg (l1 ++ bad :: l2) g).err = some uploadFinishedWithErrors ∧
      (runUpload C cfg (l1 ++ bad :: l2) g).successCount =
        (runUpload C cfg (l1 ++ l2) g).successCount ∧
      (runUpload C cfg (l1 ++ bad :: l2) g).failCount =
        (runUpload C cfg (l1 ++ l2) g).failCount := by
  obtain ⟨hfl, hs, hf⟩ := uploadLoop_with_bad C.uploadFiles cfg l1 l2 bad hbad
  refine ⟨(runUpload_hard C cfg _ g hfl).1, ?_, ?_⟩
  · rw [(runUpload_counts C cfg _ g).1, (runUpload_counts C cfg _ g).1, hs]
  · rw [(runUpload_counts C cfg _ g).2, (runUpload_counts C cfg _ g).2, hf]

/-- C5: an entry whose present override is not boolean-parseable
contributes nothing to either count (the run's counts equal those of the
same run without it, so all remaining entries are still processed), and
the final error is non-nil. -/
theorem C5_malformed_override (C : Collaborators) (cfg : UploadConfiguration)
    (pre post : List File) (bad : File) (cp : String) (m : Int)
    (h1 : C.securityDir = Except.ok cp)
    (h2 : getMinChecksumDeploySize C.env = Except.ok m)
    (h3 : C.createArtAuthConfig = Except.ok ())
    (h4 : C.newManager = Except.ok ())
    (hbad : hasMalformedOverride bad = true) :
    (Upload C (pre ++ bad :: post) cfg).err ≠ none ∧
      (Upload C (pre ++ bad :: post) cfg).successCount =
        (Upload C (pre ++ post) cfg).successCount ∧
      (Upload C (pre ++ bad :: post) cfg).failCount =
        (Upload C (pre ++ post) cfg).failCount := by
  by_cases hc : collectAndNotDry cfg = true
  · cases hsg : C.saveBuildGeneralDetails cfg.BuildName cfg.BuildNumber with
    | some e =>
      rw [Upload_ok_generalFail C (pre ++ bad :: post) cfg cp m e h1 h2 h3 h4 hc hsg,
        Upload_ok_generalFail C (pre ++ post) cfg cp m e h1 h2 h3 h4 hc hsg]
      exact ⟨by simp, rfl, rfl⟩
    | none =>
      rw [Upload_ok_collect C (pre ++ bad :: post) cfg cp m h1 h2 h3 h4 hc hsg,
        Upload_ok_collect C (pre ++ post) cfg cp m h1 h2 h3 h4 hc hsg]
      have hdist : injectBuildProps C.createBuildProperties cfg.BuildName cfg.BuildNumber
          (pre ++ bad :: post) =
        injectBuildProps C.createBuildProperties cfg.BuildName cfg.BuildNumber pre ++
          { bad with Props := (addBuildProps C.createBuildProperties bad.Props
              cfg.BuildName cfg.BuildNumber).1 } ::
            injectBuildProps C.createBuildProperties cfg.BuildName cfg.BuildNumber post := by
        simp [injectBuildProps]
      have hdist2 : injectBuildProps C.createBuildProperties cfg.BuildName cfg.BuildNumber
          (pre ++ post) =
        injectBuildProps C.createBuildProperties cfg.BuildName cfg.BuildNumber pre ++
          injectBuildProps C.createBuildProperties cfg.BuildName cfg.BuildNumber post := by
        simp [injectBuildProps]
      rw [hdist, hdist2]
      have hbad2 : getUploadParams
          { bad with Props := (addBuildProps C.createBuildProperties bad.Props
              cfg.BuildName cfg.BuildNumber).1 } cfg = Except.error invalidBoolMsg :=
        getUploadParams_malformed _ cfg ((hasMalformedOverride_setProps bad _).trans hbad)
      obtain ⟨he, hs, hf⟩ := runUpload_with_bad C cfg _ _ _ true hbad2
      rw [he, hs, hf]
      exact ⟨by simp, rfl, rfl⟩
  · have hnc : collectAndNotDry cfg = false := by simpa using hc
    rw [Upload_ok_nocollect C (pre ++ bad :: post) cfg cp m h1 h2 h3 h4 hnc,
      Upload_ok_nocollect C (pre ++ post) cfg cp m h1 h2 h3 h4 hnc]
    obtain ⟨he, hs, hf⟩ := runUpload_with_bad C cfg pre post bad false
      (getUploadParams_malformed bad cfg hbad)
    rw [he, hs, hf]
    exact ⟨by simp, rfl, rfl⟩

/-- C5 (witness): three entries with a malformed `Flat` override in the
middle — the two good entries still transfer (counts equal the run with
the bad entry removed) and the run ends with a non-nil error. -/
theorem C5_witness :
    (Upload okCollab [fPlain, fBad, fA] cfgPlain).err ≠ none ∧
      (Upload okCollab [fPlain, fBad, fA] cfgPlain).successCount = 2 ∧
      (Upload okCollab [fPlain, fBad, fA] cfgPlain).failCount = 0 := by
  have h := C5_malformed_override okCollab cfgPlain [fPlain] [fA] fBad "certs" 10240
    rfl rfl rfl rfl (by decide)
  exact ⟨h.1, h.2.1.trans (by decide), h.2.2.trans (by decide)⟩

/-! ### Claim C9 — descriptors map one-to-one into the build payload -/

theorem runUpload_savedBuildInfo_eq (C : Collaborators) (cfg : UploadConfiguration)
    (fs : List File) (g : Bool) (a b : String) (arts : List Artifact)
    (h : (runUpload C cfg fs g).savedBuildInfo = some (a, b, arts)) :
    arts = convertFileInfoToBuildArtifacts C.toBuildArtifacts
      (uploadLoop C.uploadFiles cfg fs).1 := by
  cases hfl : (uploadLoop C.uploadFiles cfg fs).2.2.2 with
  | true =>
    rw [(runUpload_hard C cfg fs g hfl).2] at h
    exact Option.noConfusion h
  | false =>
    by_cases hz : (uploadLoop C.uploadFiles cfg fs).2.2.1 = 0
    · cases hcc : collectAndNotDry cfg with
      | true =>
        rw [(runUpload_commit C cfg fs g hfl hz hcc).2] at h
        injection h with h'
        simp only [Prod.ext_iff] at h'
        exact h'.2.2.symm
      | false =>
        rw [(runUpload_nocollect C cfg fs g hfl hz hcc).2] at h
        exact Option.noConfusion h
    · rw [(runUpload_soft C cfg fs g hfl (Nat.pos_of_ne_zero hz)).2] at h
      exact Option.noConfusion h

theorem Upload_savedBuildInfo_eq (C : Collaborators) (files : List File)
    (cfg : UploadConfiguration) (a b : String) (arts : List Artifact)
    (h : (Upload C files cfg).savedBuildInfo = some (a, b, arts)) :
    arts = convertFileInfoToBuildArtifacts C.toBuildArtifacts
      (uploadLoop C.uploadFiles cfg (Upload C files cfg).finalFiles).1 := by
  unfold Upload at h ⊢
  cases hsd : C.securityDir with
  | error e => simp [hsd] at h
  | ok cp =>
    simp only [hsd] at h ⊢
    cases hms : getMinChecksumDeploySize C.env with
    | error e => simp [hms] at h
    | ok m =>
      simp only [hms] at h ⊢
      cases hcfg : createUploadServiceConfig C.createArtAuthConfig cfg cp m with
      | error e => simp [hcfg] at h
      | ok sc =>
        simp only [hcfg] at h ⊢
        cases hnm : C.newManager with
        | error e => simp [hnm] at h
        | ok u =>
          simp only [hnm] at h ⊢
          by_cases hc : collectAndNotDry cfg = true
          · rw [if_pos hc] at h ⊢
            cases hsg : C.saveBuildGeneralDetails cfg.BuildName cfg.BuildNumber with
            | some e => simp [hsg] at h
            | none =>
              simp only [hsg] at h ⊢
              rw [runUpload_finalFiles]
              exact runUpload_savedBuildInfo_eq C cfg _ true a b arts h
          · rw [if_neg hc] at h ⊢
            rw [runUpload_finalFiles]
            exact runUpload_savedBuildInfo_eq C cfg files false a b arts h

/-- C9: whenever `Upload` hands a partial build-info payload to the
persistence collaborator, its artifact list is exactly the index-preserving
projection of the run's collected file descriptors: same length, and the
`i`-th artifact is the projection of the `i`-th descriptor. -/
theorem C9_roundtrip (C : Collaborators) (files : List File) (cfg : UploadConfiguration)
    (a b : String) (arts : List Artifact)
    (h : (Upload C files cfg).savedBuildInfo = some (a, b, arts)) :
    arts = convertFileInfoToBuildArtifacts C.toBuildArtifacts
        (uploadLoop C.uploadFiles cfg (Upload C files cfg).finalFiles).1 ∧
      arts.length =
        (uploadLoop C.uploadFiles cfg (Upload C files cfg).finalFiles).1.length ∧
      ∀ (i : Nat) (hi : i < arts.length)
        (hj : i < (uploadLoop C.uploadFiles cfg (Upload C files cfg).finalFiles).1.length),
        arts.get ⟨i, hi⟩ =
          C.toBuildArtifacts
            ((uploadLoop C.uploadFiles cfg (Upload C files cfg).finalFiles).1.get ⟨i, hj⟩) := by
  have heq := Upload_savedBuildInfo_eq C files cfg a b arts h
  subst heq
  refine ⟨rfl, by simp [convertFileInfoToBuildArtifacts], ?_⟩
  intro i hi hj
  simp [convertFileInfoToBuildArtifacts, List.get_eq_getElem, List.getElem_map]

/-- C9 (witness): a clean build-tracked run whose single transferred
descriptor appears as the single projected artifact in the payload. -/
theorem C9_witness :
    (Upload okCollab [fPlain] cfgBuild).savedBuildInfo =
        some ("b", "1", [sampleToArtifact sampleFI]) ∧
      [sampleToArtifact sampleFI] =
        convertFileInfoToBuildArtifacts okCollab.toBuildArtifacts
          (uploadLoop okCollab.uploadFiles cfgBuild
            (Upload okCollab [fPlain] cfgBuild).finalFiles).1 := by
  refine ⟨rfl, ?_⟩
  exact (C9_roundtrip okCollab [fPlain] cfgBuild "b" "1" [sampleToArtifact sampleFI] rfl).1

/-! ### Claim C10 — a specification with zero entries -/

/-- C10: after successful initialization (including, when build tracking
is on, the general-details save), an empty specification yields zero
counts; with build name and number non-empty and dry-run false the
general-details save and the commit with an empty artifact list still
happen and the commit's error is returned; otherwise the error is nil. -/
theorem C10_empty_spec (C : Collaborators) (cfg : UploadConfiguration)
    (cp : String) (m : Int)
    (h1 : C.securityDir = Except.ok cp)
    (h2 : getMinChecksumDeploySize C.env = Except.ok m)
    (h3 : C.createArtAuthConfig = Except.ok ())
    (h4 : C.newManager = Except.ok ())
    (hg : collectAndNotDry cfg = true →
      C.saveBuildGeneralDetails cfg.BuildName cfg.BuildNumber = none) :
    (Upload C [] cfg).successCount = 0 ∧
      (Upload C [] cfg).failCount = 0 ∧
      (collectAndNotDry cfg = true →
        (Upload C [] cfg).generalCalled = true ∧
          (Upload C [] cfg).savedBuildInfo =
            some (cfg.BuildName, cfg.BuildNumber, []) ∧
          (Upload C [] cfg).err = C.savePartialBuildInfo cfg.BuildName cfg.BuildNumber []) ∧
      (collectAndNotDry cfg = false → (Upload C [] cfg).err = none) := by
  by_cases hc : collectAndNotDry cfg = true
  · rw [Upload_ok_collect C [] cfg cp m h1 h2 h3 h4 hc (hg hc)]
    rw [show injectBuildProps C.createBuildProperties cfg.BuildName cfg.BuildNumber [] =
      ([] : List File) from rfl]
    obtain ⟨he, hsb⟩ := runUpload_commit C cfg [] true rfl rfl hc
    refine ⟨(runUpload_counts C cfg [] true).1.trans rfl,
      (runUpload_counts C cfg [] true).2.trans rfl,
      fun _ => ⟨runUpload_generalCalled C cfg [] true, hsb.trans rfl, he.trans rfl⟩,
      fun hcf => ?_⟩
    rw [hc] at hcf
    exact Bool.noConfusion hcf
  · have hnc : collectAndNotDry cfg = false := by simpa using hc
    rw [Upload_ok_nocollect C [] cfg cp m h1 h2 h3 h4 hnc]
    refine ⟨(runUpload_counts C cfg [] false).1.trans rfl,
      (runUpload_counts C cfg [] false).2.trans rfl,
      fun hct => absurd hct hc,
      fun _ => (runUpload_nocollect C cfg [] false rfl rfl hnc).1⟩

/-- C10 (witness): the empty specification with and without build
tracking. -/
theorem C10_witness :
    (Upload okCollab [] cfgBuild).successCount = 0 ∧
      (Upload okCollab [] cfgBuild).failCount = 0 ∧
      (Upload okCollab [] cfgBuild).savedBuildInfo = some ("b", "1", []) ∧
      (Upload okCollab [] cfgBuild).err = none ∧
      (Upload okCollab [] cfgPlain).err = none := by
  have h := C10_empty_spec okCollab cfgBuild "certs" 10240 rfl rfl rfl rfl (by decide)
  have hp := C10_empty_spec okCollab cfgPlain "certs" 10240 rfl rfl rfl rfl (by decide)
  obtain ⟨hcb, hsb, he⟩ := h.2.2.1 (by decide)
  exact ⟨h.1, h.2.1, hsb, he.trans rfl, hp.2.2.2 (by decide)⟩

end JfrogUpload
